import Mathlib

/-
Verification of the ACA pricing dashboard's computational core
(src/aca_pricing_dashboard.py) against its natural-language specification.

The pricing function and the market statistics are pure arithmetic over
Python numbers; we embed them over ℚ, with the credit grade as an integer
(the UI supplies it from a selectbox over 1..7).  The Python function body
is wrapped in a try/except that returns None on any exception; the only
expression that can raise is the division `profit / loan_amnt`, which
raises ZeroDivisionError exactly when loan_amnt = 0, so the embedding
returns an Option that is none exactly there.
-/

namespace AcaPricing

/-- The dictionary returned by get_real_pricing in the source. -/
structure PricingResult where
  apr : ℚ
  risk_probability : ℚ
  expected_profit : ℚ
  profit_margin : ℚ
  confidence : String
  optimization_applied : String
  risk_tier : String
deriving DecidableEq

/-- Python's two-argument max: returns the second argument only when it is
strictly greater than the first.  On ℚ this agrees with the lattice max;
it is written out so that kernel reduction can evaluate it. -/
def pymax (a b : ℚ) : ℚ := if a < b then b else a

/-- Python's two-argument min, written out like pymax above. -/
def pymin (a b : ℚ) : ℚ := if b < a then b else a

theorem pymax_eq_max (a b : ℚ) : pymax a b = max a b := by
  unfold pymax
  rcases lt_or_ge a b with h | h
  · rw [if_pos h, max_eq_right h.le]
  · rw [if_neg (not_lt.mpr h), max_eq_left h]

theorem pymin_eq_min (a b : ℚ) : pymin a b = min a b := by
  unfold pymin
  rcases lt_or_ge b a with h | h
  · rw [if_pos h, min_eq_right h.le]
  · rw [if_neg (not_lt.mpr h), min_eq_left h]

/-- Embedding of get_real_pricing (src/aca_pricing_dashboard.py lines 56-89).
Returns none exactly when the Python body raises (ZeroDivisionError at
`profit / loan_amnt`, caught by the bare except which returns None). -/
def get_real_pricing (loan_amnt annual_inc dti : ℚ) (grade_num : ℤ) : Option PricingResult :=
  let base_rate := 8.0 + ((grade_num : ℚ) - 1) * 2.0
  let dti_adj := pymax 0 ((dti - 20) * 0.05)
  let income_adj := pymax (-0.5) (pymin 0.5 ((60000 - annual_inc) / 100000))
  let final_rate := base_rate + dti_adj + income_adj
  let final_rate := pymax 5.99 (pymin 29.99 final_rate)
  let risk_score := pymin 0.4 (pymax 0.02 (0.05 + ((grade_num : ℚ) - 1) * 0.05))
  let revenue := loan_amnt * (final_rate / 100) * 4
  let costs := risk_score * loan_amnt * 0.5 + 300 + loan_amnt * 0.025 * 4
  let profit := revenue - costs
  if loan_amnt = 0 then none
  else some {
    apr := final_rate
    risk_probability := risk_score
    expected_profit := profit
    profit_margin := profit / loan_amnt
    confidence := "High"
    optimization_applied := "Enhanced_Model"
    risk_tier := if grade_num ≤ 2 then "Prime"
                 else if grade_num ≤ 4 then "Near Prime" else "Subprime" }

/-- One row of the hard-coded market table (get_market_data, lines 96-108). -/
structure MarketRateObservation where
  source : String
  rate : ℚ
  loan_type : String
deriving DecidableEq

/-- The fixed market table returned by get_market_data (lines 96-108). -/
def market_rates : List MarketRateObservation :=
  [ ⟨"Bankrate", 10.00, "auto_loan"⟩,
    ⟨"Bankrate", 6.49, "auto_loan"⟩,
    ⟨"Bankrate", 15.29, "auto_loan"⟩,
    ⟨"Bankrate", 14.07, "auto_loan"⟩,
    ⟨"Bankrate", 16.20, "auto_loan"⟩,
    ⟨"Bankrate", 4.67, "auto_loan"⟩,
    ⟨"Bankrate", 5.99, "auto_loan"⟩,
    ⟨"Bankrate", 12.50, "auto_loan"⟩,
    ⟨"Yahoo_Finance", 4.26, "10yr_treasury"⟩,
    ⟨"Yahoo_Finance", 3.81, "5yr_treasury"⟩,
    ⟨"Yahoo_Finance", 4.82, "30yr_treasury"⟩ ]

/-- The filter-then-project idiom `market_data[market_data.loan_type == t].rate`
used at lines 151, 321 and 358 of the source. -/
def ratesOfType (t : String) : List ℚ :=
  (market_rates.filter (fun o => o.loan_type = t)).map (fun o => o.rate)

/-- The auto-loan rate series used by the pricing calculator (line 321). -/
def auto_loan_rates : List ℚ := ratesOfType "auto_loan"

/-- Embedding of `(auto_rates <= rate).mean() * 100` (line 327): the mean of
the boolean indicator series, scaled to a percentage. -/
def percentile_rank (rate : ℚ) (obs : List ℚ) : ℚ :=
  ((obs.map (fun r => if r ≤ rate then (1 : ℚ) else 0)).sum / (obs.length : ℚ)) * 100

/-- Embedding of `.mean()` over a rate series (lines 151, 322, 358). -/
def average (obs : List ℚ) : ℚ := obs.sum / (obs.length : ℚ)

/-- The spec's description of percentile_rank: 100 times the fraction of
observations whose rate is ≤ the given rate (spec section 4.2).  Stated
separately from the source embedding so the two can be compared. -/
def percentile_rank_spec (rate : ℚ) (obs : List ℚ) : ℚ :=
  (((obs.filter (fun r => r ≤ rate)).length : ℚ) / (obs.length : ℚ)) * 100

/-- Modelled from the spec: the error taxonomy of section 7.  The reference
implementation has no such errors; the spec mandates them for any faithful
reimplementation. -/
inductive PricingError where
  | InvalidInputError
deriving DecidableEq

/-- Modelled from the spec: the NoDataError of sections 4.2 and 7. -/
inductive StatsError where
  | NoDataError
deriving DecidableEq

/-- Modelled from the spec: the validating `price` contract of section 4.1,
which is absent from src (the spec notes the reference implementation does
not validate).  It rejects credit_grade outside [1,7] and non-positive
loan_amount or annual_income, and otherwise computes exactly what the
reference computes. -/
def price (loan_amnt annual_inc dti : ℚ) (grade_num : ℤ) :
    Except PricingError PricingResult :=
  if grade_num < 1 ∨ 7 < grade_num ∨ loan_amnt ≤ 0 ∨ annual_inc ≤ 0 then
    Except.error PricingError.InvalidInputError
  else
    match get_real_pricing loan_amnt annual_inc dti grade_num with
    | some r => Except.ok r
    | none => Except.error PricingError.InvalidInputError

/-- Modelled from the spec: percentile_rank with the mandated NoDataError
path for an empty observation set (section 4.2 edge case), absent from src. -/
def percentile_rank_checked (rate : ℚ) (obs : List ℚ) : Except StatsError ℚ :=
  if obs.isEmpty then Except.error StatsError.NoDataError
  else Except.ok (percentile_rank rate obs)

/-- Modelled from the spec: average with the mandated NoDataError path for
an empty observation set (section 4.2 edge case), absent from src. -/
def average_checked (obs : List ℚ) : Except StatsError ℚ :=
  if obs.isEmpty then Except.error StatsError.NoDataError
  else Except.ok (average obs)

/- Projection lemmas: closed forms for the fields of the record returned by
get_real_pricing, phrased with the lattice max and min so that Mathlib's
order lemmas apply. -/

theorem apr_of_get_real_pricing (l a d : ℚ) (g : ℤ) (r : PricingResult)
    (h : get_real_pricing l a d g = some r) :
    r.apr = max 5.99 (min 29.99 (8.0 + ((g : ℚ) - 1) * 2.0 + max 0 ((d - 20) * 0.05) +
      max (-0.5) (min 0.5 ((60000 - a) / 100000)))) := by
  simp only [get_real_pricing] at h
  split at h
  · simp at h
  · rw [Option.some_inj] at h
    subst h
    simp [pymax_eq_max, pymin_eq_min]

theorem risk_of_get_real_pricing (l a d : ℚ) (g : ℤ) (r : PricingResult)
    (h : get_real_pricing l a d g = some r) :
    r.risk_probability = min 0.4 (max 0.02 (0.05 + ((g : ℚ) - 1) * 0.05)) := by
  simp only [get_real_pricing] at h
  split at h
  · simp at h
  · rw [Option.some_inj] at h
    subst h
    simp [pymax_eq_max, pymin_eq_min]

theorem tier_of_get_real_pricing (l a d : ℚ) (g : ℤ) (r : PricingResult)
    (h : get_real_pricing l a d g = some r) :
    r.risk_tier = (if g ≤ 2 then "Prime" else if g ≤ 4 then "Near Prime" else "Subprime") := by
  simp only [get_real_pricing] at h
  split at h
  · simp at h
  · rw [Option.some_inj] at h
    subst h
    rfl

/-- The boolean-indicator mean underlying percentile_rank counts exactly the
observations at or below the given rate. -/
theorem indicator_sum_eq_filter_length (rate : ℚ) (obs : List ℚ) :
    (obs.map (fun r => if r ≤ rate then (1 : ℚ) else 0)).sum
      = ((obs.filter (fun r => r ≤ rate)).length : ℚ) := by
  induction obs with
  | nil => simp
  | cons x xs ih =>
    by_cases hx : x ≤ rate
    · simp [hx, List.filter_cons, ih]
      ring
    · simp [hx, List.filter_cons, ih]

/-- Claim C1: on the input loan_amount 25000, annual_income 65000,
debt_to_income 18.0, credit_grade 3, the pricing function returns
apr 11.95, risk_probability 0.15, expected_profit 7275, profit_margin
0.291 and risk_tier Near Prime. -/
theorem C1_example_pricing :
    get_real_pricing 25000 65000 18 3 =
      some { apr := 11.95, risk_probability := 0.15, expected_profit := 7275,
             profit_margin := 0.291, confidence := "High",
             optimization_applied := "Enhanced_Model", risk_tier := "Near Prime" } := by
  norm_num [get_real_pricing, pymax, pymin]

/-- Claim C2: whenever the pricing function returns a result, its apr lies
within [5.99, 29.99] and its risk_probability lies within [0.02, 0.40],
for any input. -/
theorem C2_apr_risk_bounds (l a d : ℚ) (g : ℤ) (r : PricingResult)
    (h : get_real_pricing l a d g = some r) :
    (5.99 ≤ r.apr ∧ r.apr ≤ 29.99) ∧
    (0.02 ≤ r.risk_probability ∧ r.risk_probability ≤ 0.40) := by
  rw [apr_of_get_real_pricing l a d g r h, risk_of_get_real_pricing l a d g r h]
  refine ⟨⟨le_max_left _ _, max_le (by norm_num) (min_le_left _ _)⟩,
          ⟨le_min (by norm_num) (le_max_left _ _), (min_le_left _ _).trans (by norm_num)⟩⟩

/-- Witness for C2 at loan 25000, income 65000, dti 18, grade 5. -/
theorem C2_apr_risk_bounds_witness :
    ((5.99 : ℚ) ≤ 15.95 ∧ (15.95 : ℚ) ≤ 29.99) ∧
    ((0.02 : ℚ) ≤ 0.25 ∧ (0.25 : ℚ) ≤ 0.40) :=
  C2_apr_risk_bounds 25000 65000 18 5
    { apr := 15.95, risk_probability := 0.25, expected_profit := 10025,
      profit_margin := 0.401, confidence := "High",
      optimization_applied := "Enhanced_Model", risk_tier := "Subprime" }
    (by norm_num [get_real_pricing, pymax, pymin])

/-- Claim C4: for every credit_grade in [1,7], the returned risk_tier is
Prime exactly on grades 1 and 2, Near Prime exactly on 3 and 4, and
Subprime exactly on 5, 6 and 7: the buckets cover [1,7] with no gaps and
no overlaps. -/
theorem C4_risk_tier_partition (l a d : ℚ) (g : ℤ) (r : PricingResult)
    (hg1 : 1 ≤ g) (hg7 : g ≤ 7) (h : get_real_pricing l a d g = some r) :
    (r.risk_tier = "Prime" ↔ g = 1 ∨ g = 2) ∧
    (r.risk_tier = "Near Prime" ↔ g = 3 ∨ g = 4) ∧
    (r.risk_tier = "Subprime" ↔ g = 5 ∨ g = 6 ∨ g = 7) := by
  rw [tier_of_get_real_pricing l a d g r h]
  interval_cases g <;> simp

/-- Witness for C4 at loan 25000, income 65000, dti 18, grade 3. -/
theorem C4_risk_tier_partition_witness :
    ("Near Prime" = "Prime" ↔ (3 : ℤ) = 1 ∨ (3 : ℤ) = 2) ∧
    ("Near Prime" = "Near Prime" ↔ (3 : ℤ) = 3 ∨ (3 : ℤ) = 4) ∧
    ("Near Prime" = "Subprime" ↔ (3 : ℤ) = 5 ∨ (3 : ℤ) = 6 ∨ (3 : ℤ) = 7) :=
  C4_risk_tier_partition 25000 65000 18 3
    { apr := 11.95, risk_probability := 0.15, expected_profit := 7275,
      profit_margin := 0.291, confidence := "High",
      optimization_applied := "Enhanced_Model", risk_tier := "Near Prime" }
    (by decide) (by decide) (by norm_num [get_real_pricing, pymax, pymin])

/-- Claim C5: percentile_rank equals 100 times the fraction of observations
at or below the given rate, and on the fixed auto-loan subset it maps the
rate 11.95 to 50. -/
theorem C5_percentile_rank (rate : ℚ) (obs : List ℚ) :
    percentile_rank rate obs = percentile_rank_spec rate obs ∧
    percentile_rank 11.95 auto_loan_rates = 50 ∧
    auto_loan_rates = [10.00, 6.49, 15.29, 14.07, 16.20, 4.67, 5.99, 12.50] := by
  refine ⟨?_, ?_, rfl⟩
  · unfold percentile_rank percentile_rank_spec
    rw [indicator_sum_eq_filter_length]
  · rw [show auto_loan_rates = [10.00, 6.49, 15.29, 14.07, 16.20, 4.67, 5.99, 12.50] from rfl]
    norm_num [percentile_rank]

/-- Claim C6: the arithmetic mean of the auto-loan rates in the fixed
market table is exactly 10.65125. -/
theorem C6_auto_loan_average : average auto_loan_rates = 10.65125 := by
  rw [show auto_loan_rates = [10.00, 6.49, 15.29, 14.07, 16.20, 4.67, 5.99, 12.50] from rfl]
  norm_num [average]

/-- Claim C3: with loan_amount, annual_income and debt_to_income fixed, the
apr is monotonically non-decreasing in the credit grade over [1,7]. -/
theorem C3_apr_monotone_in_grade (l a d : ℚ) (g1 g2 : ℤ) (r1 r2 : PricingResult)
    (_hg1 : 1 ≤ g1) (hg12 : g1 ≤ g2) (_hg2 : g2 ≤ 7)
    (h1 : get_real_pricing l a d g1 = some r1)
    (h2 : get_real_pricing l a d g2 = some r2) :
    r1.apr ≤ r2.apr := by
  rw [apr_of_get_real_pricing l a d g1 r1 h1, apr_of_get_real_pricing l a d g2 r2 h2]
  apply max_le_max le_rfl
  apply min_le_min le_rfl
  have hq : (g1 : ℚ) ≤ (g2 : ℚ) := by exact_mod_cast hg12
  linarith

/-- Witness for C3 at loan 25000, income 65000, dti 18, grades 2 and 5. -/
theorem C3_apr_monotone_in_grade_witness :
    (1 : ℤ) ≤ 2 ∧ (2 : ℤ) ≤ 5 ∧ (5 : ℤ) ≤ 7 ∧ (9.95 : ℚ) ≤ 15.95 :=
  ⟨by decide, by decide, by decide,
    C3_apr_monotone_in_grade 25000 65000 18 2 5
      { apr := 9.95, risk_probability := 0.1, expected_profit := 5900,
        profit_margin := 0.236, confidence := "High",
        optimization_applied := "Enhanced_Model", risk_tier := "Prime" }
      { apr := 15.95, risk_probability := 0.25, expected_profit := 10025,
        profit_margin := 0.401, confidence := "High",
        optimization_applied := "Enhanced_Model", risk_tier := "Subprime" }
      (by decide) (by decide) (by decide)
      (by norm_num [get_real_pricing, pymax, pymin])
      (by norm_num [get_real_pricing, pymax, pymin])⟩

/-- Claim C7, modelled from the spec: the validating price contract fails
with InvalidInputError whenever credit_grade is outside [1,7] or
loan_amount or annual_income is non-positive. -/
theorem C7_price_invalid_input (l a d : ℚ) (g : ℤ)
    (h : g < 1 ∨ 7 < g ∨ l ≤ 0 ∨ a ≤ 0) :
    price l a d g = Except.error PricingError.InvalidInputError := by
  unfold price
  rw [if_pos h]

/-- Witness for C7 at the out-of-range credit grade 0. -/
theorem C7_price_invalid_input_witness :
    price 25000 65000 18 0 = Except.error PricingError.InvalidInputError :=
  C7_price_invalid_input 25000 65000 18 0 (Or.inl (by decide))

/-- Claim C8, modelled from the spec: percentile_rank and average over an
empty observation set fail with NoDataError instead of returning a
number. -/
theorem C8_no_data_error (rate : ℚ) (obs : List ℚ) (h : obs = []) :
    percentile_rank_checked rate obs = Except.error StatsError.NoDataError ∧
    average_checked obs = Except.error StatsError.NoDataError := by
  subst h
  exact ⟨rfl, rfl⟩

/-- Witness for C8: the loan type personal_loan has zero matching
observations in the fixed market table. -/
theorem C8_no_data_error_witness :
    ratesOfType "personal_loan" = [] ∧
    percentile_rank_checked 11.95 (ratesOfType "personal_loan")
        = Except.error StatsError.NoDataError ∧
    average_checked (ratesOfType "personal_loan")
        = Except.error StatsError.NoDataError :=
  ⟨rfl, C8_no_data_error 11.95 (ratesOfType "personal_loan") rfl⟩

/-- Claim C9: for credit grades in [1,7] and non-negative dti, the apr is
at least 7.5 — the pre-clamp rate is already at least 8 − 0.5 — so the
lower clamp bound 5.99 is never attained and the effective apr range is
[7.5, 29.99]. -/
theorem C9_effective_apr_range (l a d : ℚ) (g : ℤ) (r : PricingResult)
    (hg1 : 1 ≤ g) (_hg7 : g ≤ 7) (_hd : 0 ≤ d)
    (h : get_real_pricing l a d g = some r) :
    7.5 ≤ r.apr ∧ r.apr ≤ 29.99 ∧ 5.99 < r.apr := by
  rw [apr_of_get_real_pricing l a d g r h]
  have hq : (1 : ℚ) ≤ (g : ℚ) := by exact_mod_cast hg1
  have hdti : (0 : ℚ) ≤ max 0 ((d - 20) * 0.05) := le_max_left _ _
  have hinc : (-0.5 : ℚ) ≤ max (-0.5) (min 0.5 ((60000 - a) / 100000)) := le_max_left _ _
  have hx : (7.5 : ℚ) ≤ 8.0 + ((g : ℚ) - 1) * 2.0 + max 0 ((d - 20) * 0.05) +
      max (-0.5) (min 0.5 ((60000 - a) / 100000)) := by linarith
  have hlow : (7.5 : ℚ) ≤ max 5.99 (min 29.99 (8.0 + ((g : ℚ) - 1) * 2.0 +
      max 0 ((d - 20) * 0.05) + max (-0.5) (min 0.5 ((60000 - a) / 100000)))) :=
    le_trans (le_min (by norm_num) hx) (le_max_right _ _)
  refine ⟨hlow, max_le (by norm_num) (min_le_left _ _), lt_of_lt_of_le (by norm_num) hlow⟩

/-- Witness for C9 at loan 25000, income 65000, dti 18, grade 1. -/
theorem C9_effective_apr_range_witness :
    (7.5 : ℚ) ≤ 7.95 ∧ (7.95 : ℚ) ≤ 29.99 ∧ (5.99 : ℚ) < 7.95 :=
  C9_effective_apr_range 25000 65000 18 1
    { apr := 7.95, risk_probability := 0.05, expected_profit := 4525,
      profit_margin := 0.181, confidence := "High",
      optimization_applied := "Enhanced_Model", risk_tier := "Prime" }
    (by decide) (by decide) (by norm_num)
    (by norm_num [get_real_pricing, pymax, pymin])

/-- Claim C10: for credit grades in [1,7] the risk_probability equals
exactly 0.05 + (grade − 1) × 0.05, which lies in [0.05, 0.35]; neither
clamp bound 0.02 nor 0.40 is attained there. -/
theorem C10_risk_probability_formula (l a d : ℚ) (g : ℤ) (r : PricingResult)
    (hg1 : 1 ≤ g) (hg7 : g ≤ 7) (h : get_real_pricing l a d g = some r) :
    r.risk_probability = 0.05 + ((g : ℚ) - 1) * 0.05 ∧
    0.05 ≤ r.risk_probability ∧ r.risk_probability ≤ 0.35 ∧
    0.02 < r.risk_probability ∧ r.risk_probability < 0.40 := by
  rw [risk_of_get_real_pricing l a d g r h]
  interval_cases g <;> norm_num [min_def, max_def]

/-- Witness for C10 at loan 25000, income 65000, dti 18, grade 4. -/
theorem C10_risk_probability_formula_witness :
    (0.2 : ℚ) = 0.05 + (((4 : ℤ) : ℚ) - 1) * 0.05 ∧
    (0.05 : ℚ) ≤ 0.2 ∧ (0.2 : ℚ) ≤ 0.35 ∧
    (0.02 : ℚ) < 0.2 ∧ (0.2 : ℚ) < 0.40 :=
  C10_risk_probability_formula 25000 65000 18 4
    { apr := 13.95, risk_probability := 0.2, expected_profit := 8650,
      profit_margin := 0.346, confidence := "High",
      optimization_applied := "Enhanced_Model", risk_tier := "Near Prime" }
    (by decide) (by decide) (by norm_num [get_real_pricing, pymax, pymin])

end AcaPricing
